import Mathlib

/-!
Verification of the Games-Sorter serverless endpoints.

The repository has five JavaScript source files (two named, three variants
with unknown file names). Each exposes a serverless handler that proxies a
game-metadata API and implements a random-game sampler:

* src/api/rawg.js          : RAWG sampler, no retry loop ("simple" Mode A).
* src/unnamed/part_000     : RAWG sampler with a 5-attempt retry loop (Mode A).
* src/api/giantbomb.js     : Giant Bomb sampler, no retry loop.
* src/unnamed/part_001     : Giant Bomb random-offset sampler with a
                             5-attempt retry loop, errors caught per attempt
                             (Mode B).
* src/unnamed/part_002     : two Giant Bomb variants; the first builds the
                             curated filter catalog partitioning platforms.

Remote calls are modelled by oracle environments: each attempt carries the
responses the remote service would return for the calls of that attempt, as
`Except TransportError` values (`.error` models a thrown fetch error, i.e. a
non-ok HTTP response turned into a JS exception by the fetch helper).
Samplers return the outcome paired with the number of external calls issued.
Random draws `Math.floor(Math.random() * n)` are modelled by `seed % n` for
an arbitrary natural seed: `Math.random()` lies in `[0, 1)`, so the source
expression ranges over `[0, n)` exactly as `seed % n` does for `n > 0`.
-/

/-- A transport-level failure: the fetch helper of every variant throws when
the HTTP response is not ok, carrying the status code. -/
inductive TransportError where
  | upstream (status : Nat)
deriving DecidableEq, Repr

/-- A RAWG list-query summary record: only the id is used by the samplers. -/
structure RawgSummary where
  id : Nat
deriving DecidableEq, Repr

/-- A RAWG detail record. The JS truthiness test on `description_raw` is
modelled by comparing the string with `""` (absent and empty both map to
the empty string, which is exactly the falsy case). -/
structure RawgDetail where
  name : String
  description_raw : String
deriving DecidableEq, Repr

/-- Validity test of the Mode A retry sampler (src/unnamed/part_000 line 81):
`gameDetails && gameDetails.description_raw`. -/
def isValidA (d : RawgDetail) : Bool :=
  d.description_raw != ""

/-- The constant `MAX_ATTEMPTS = 5` of src/unnamed/part_000 and src/unnamed/part_001. -/
def MAX_ATTEMPTS : Nat := 5

/-- The expression `Math.min(250, Math.ceil(totalGames / 40))` from src/api/rawg.js line 64
and src/unnamed/part_000 line 67; `(n + 39) / 40` is the natural-number
rendering of `Math.ceil(n / 40)`. -/
def maxPage (totalGames : Nat) : Nat :=
  min 250 ((totalGames + 39) / 40)

/-- The expression `Math.floor(Math.random() * maxPage) + 1` with the random draw modelled
by `seed % m`. -/
def randomPage (seed m : Nat) : Nat :=
  seed % m + 1

/-- Oracle environment for one attempt of a RAWG sampler: the remote
responses for the count probe, the page fetch (indexed by the requested
page number) and the detail fetch (indexed by the requested game id), plus
the two random seeds drawn during the attempt. -/
structure AttemptEnvA where
  countResp : Except TransportError Nat
  pageResp : Nat → Except TransportError (List RawgSummary)
  detailResp : Nat → Except TransportError RawgDetail
  pageSeed : Nat
  pickSeed : Nat

/-- Outcome of one iteration of the Mode A retry loop body. -/
inductive AttemptOutcomeA where
  | found (d : RawgDetail)
  | noGames
  | retry
  | err (e : TransportError)
deriving DecidableEq, Repr

/-- One iteration of the retry loop of getSortedGame in src/unnamed/part_000
(lines 56 to 87), paired with the number of external calls it issues: count
probe, then page fetch, then (when the page is non-empty) detail fetch.
There is no try/catch, so a thrown fetch error becomes `.err` and, in
`runA` below, aborts the whole call. -/
def attemptA (env : AttemptEnvA) : AttemptOutcomeA × Nat :=
  match env.countResp with
  | .error e => (.err e, 1)
  | .ok totalGames =>
    if totalGames = 0 then (.noGames, 1)
    else
      match env.pageResp (randomPage env.pageSeed (maxPage totalGames)) with
      | .error e => (.err e, 2)
      | .ok results =>
        if h : results.length = 0 then (.retry, 2)
        else
          let summary := results.get
            ⟨env.pickSeed % results.length, Nat.mod_lt _ (Nat.pos_of_ne_zero h)⟩
          match env.detailResp summary.id with
          | .error e => (.err e, 3)
          | .ok d => if isValidA d then (.found d, 3) else (.retry, 3)

/-- The `for` loop of getSortedGame in src/unnamed/part_000: run attempts
until one returns, a zero count returns null, an error propagates, or the
budget is exhausted (then return null, line 90). `i` is the attempt index,
`fuel` the remaining attempts; the call count is accumulated. -/
def runA (env : Nat → AttemptEnvA) :
    Nat → Nat → Except TransportError (Option RawgDetail) × Nat
  | _, 0 => (.ok none, 0)
  | i, fuel + 1 =>
    match attemptA (env i) with
    | (.found d, c) => (.ok (some d), c)
    | (.noGames, c) => (.ok none, c)
    | (.err e, c) => (.error e, c)
    | (.retry, c) =>
      let r := runA env (i + 1) fuel
      (r.1, c + r.2)

/-- getSortedGame of src/unnamed/part_000 (the Mode A retry sampler). -/
def getSortedGameRetryA (env : Nat → AttemptEnvA) :
    Except TransportError (Option RawgDetail) × Nat :=
  runA env 0 MAX_ATTEMPTS

/-- getSortedGame of src/api/rawg.js (no retry loop): count probe, page
fetch, detail fetch, the detail returned without any validity check. -/
def getSortedGameSimple (env : AttemptEnvA) :
    Except TransportError (Option RawgDetail) × Nat :=
  match env.countResp with
  | .error e => (.error e, 1)
  | .ok totalGames =>
    if totalGames = 0 then (.ok none, 1)
    else
      match env.pageResp (randomPage env.pageSeed (maxPage totalGames)) with
      | .error e => (.error e, 2)
      | .ok results =>
        if h : results.length = 0 then (.ok none, 2)
        else
          let summary := results.get
            ⟨env.pickSeed % results.length, Nat.mod_lt _ (Nat.pos_of_ne_zero h)⟩
          match env.detailResp summary.id with
          | .error e => (.error e, 3)
          | .ok d => (.ok (some d), 3)

/-- A Giant Bomb image record. -/
structure GBImage where
  super_url : String
deriving DecidableEq, Repr

/-- A Giant Bomb detail record as used by the Mode B validity test:
`game && game.name && game.image && game.image.super_url`. An absent image
is `none`; the falsy string cases are the empty string. -/
structure GBDetail where
  name : String
  image : Option GBImage
deriving DecidableEq, Repr

/-- Validity test of the Mode B retry sampler (src/unnamed/part_001
line 59). -/
def isValidB (g : GBDetail) : Bool :=
  g.name != "" &&
    (match g.image with
     | some img => img.super_url != ""
     | none => false)

/-- A Giant Bomb list-query summary record: only the guid is used. -/
structure GBSummary where
  guid : String
deriving DecidableEq, Repr

/-- Oracle environment for one attempt of the Mode B sampler: responses for
the count probe, the offset fetch (indexed by the requested offset) and the
detail fetch (indexed by the requested guid), plus the random seed. -/
structure AttemptEnvB where
  countResp : Except TransportError Nat
  summaryResp : Nat → Except TransportError (List GBSummary)
  detailResp : String → Except TransportError GBDetail
  offsetSeed : Nat

/-- The only error getRandomGame of src/unnamed/part_001 can propagate: the
exhaustion error thrown after the loop (line 73). Every error raised inside
an attempt is caught by the per-attempt catch block (lines 66 to 69). -/
inductive GBError where
  | exhausted
deriving DecidableEq, Repr

/-- One iteration of the retry loop body of getRandomGame in
src/unnamed/part_001 (lines 28 to 69). The whole body sits in a try/catch,
so a thrown fetch error and the zero-count domain error both yield `none`
(the loop continues); the second component of the pair counts external calls. -/
def attemptB (env : AttemptEnvB) : Option GBDetail × Nat :=
  match env.countResp with
  | .error _ => (none, 1)
  | .ok totalGames =>
    if totalGames = 0 then (none, 1)
    else
      match env.summaryResp (env.offsetSeed % totalGames) with
      | .error _ => (none, 2)
      | .ok results =>
        match results with
        | [] => (none, 2)
        | s :: _ =>
          match env.detailResp s.guid with
          | .error _ => (none, 3)
          | .ok g => if isValidB g then (some g, 3) else (none, 3)

/-- The `for` loop of getRandomGame in src/unnamed/part_001: run attempts
until one finds a valid game; on exhaustion throw the definitive error. -/
def runB (env : Nat → AttemptEnvB) :
    Nat → Nat → Except GBError GBDetail × Nat
  | _, 0 => (.error .exhausted, 0)
  | i, fuel + 1 =>
    match attemptB (env i) with
    | (some g, c) => (.ok g, c)
    | (none, c) =>
      let r := runB env (i + 1) fuel
      (r.1, c + r.2)

/-- getRandomGame of src/unnamed/part_001 (the Mode B retry sampler). -/
def getRandomGame (env : Nat → AttemptEnvB) : Except GBError GBDetail × Nat :=
  runB env 0 MAX_ATTEMPTS

instance {ε α : Type} [DecidableEq ε] [DecidableEq α] : DecidableEq (Except ε α) := fun a b =>
  match a, b with
  | .ok x, .ok y =>
    if h : x = y then .isTrue (by rw [h]) else .isFalse (by simp [h])
  | .error x, .error y =>
    if h : x = y then .isTrue (by rw [h]) else .isFalse (by simp [h])
  | .ok _, .error _ => .isFalse (by simp)
  | .error _, .ok _ => .isFalse (by simp)

/-- The search payload of the non-retry Giant Bomb sampler of
src/api/giantbomb.js: total-result counter and the (up to 100) summaries. -/
structure GBSearchData where
  number_of_total_results : Nat
  results : List GBSummary
deriving DecidableEq, Repr

/-- Errors observable from getSortedGame of src/api/giantbomb.js: a
propagated fetch failure, or the TypeError raised by reading `.guid` off
`undefined` when the results array is empty. -/
inductive JsError where
  | transport (e : TransportError)
  | typeError
deriving DecidableEq, Repr

/-- Oracle environment for getSortedGame of src/api/giantbomb.js. -/
structure GBSimpleEnv where
  searchResp : Except TransportError GBSearchData
  detailResp : String → Except TransportError GBDetail
  pickSeed : Nat

/-- getSortedGame of src/api/giantbomb.js (lines 34 to 59): one search call,
then an unguarded random pick from `results` (empty array with a non-zero
total yields `results[0] = undefined`, and `undefined.guid` throws a
TypeError), then a detail fetch whose payload is returned unconditionally. -/
def gbGetSortedGame (env : GBSimpleEnv) : Except JsError (Option GBDetail) × Nat :=
  match env.searchResp with
  | .error e => (.error (.transport e), 1)
  | .ok sd =>
    if sd.number_of_total_results = 0 then (.ok none, 1)
    else
      if h : sd.results.length = 0 then (.error .typeError, 1)
      else
        let summary := sd.results.get
          ⟨env.pickSeed % sd.results.length, Nat.mod_lt _ (Nat.pos_of_ne_zero h)⟩
        match env.detailResp summary.guid with
        | .error e => (.error (.transport e), 2)
        | .ok g => (.ok (some g), 2)

/-- Cache-Control header value that the handler of src/api/rawg.js and the
handler of src/unnamed/part_000 attach to a successful response, per
resource (lines 100 to 111 of src/api/rawg.js): shared cache for the filter
catalog, no caching for the game sample. -/
def rawgCacheControl (resource : String) : Option String :=
  if resource = "filters" then some "s-maxage=86400, stale-while-revalidate"
  else if resource = "game" then some "no-cache, no-store, must-revalidate"
  else none

/-- Cache-Control header of the handler of src/api/giantbomb.js (lines 94
to 96): one shared-cache directive for every successful response, game
samples included. -/
def gbCacheControl (resource : String) : Option String :=
  if resource = "genres" || resource = "platforms" || resource = "game" then
    some "s-maxage=3600, stale-while-revalidate"
  else none

/-- Cache-Control header of the first handler variant of
src/unnamed/part_002 (line 149): one shared-cache directive for every
successful response, game samples included. -/
def gb2CacheControl (resource : String) : Option String :=
  if resource = "filters" || resource = "game" then
    some "s-maxage=86400, stale-while-revalidate"
  else none

/-- Cache-Control header of the second handler variant of
src/unnamed/part_002 (lines 259 and 266): shared cache for the filter
catalog, no caching for the game sample. -/
def gb3CacheControl (resource : String) : Option String :=
  if resource = "filters" then some "s-maxage=86400, stale-while-revalidate"
  else if resource = "game" then some "no-cache, no-store, must-revalidate"
  else none

/-- Cache-Control header of the handler of src/unnamed/part_001 (line 98):
no caching for the random game sample. -/
def modeBCacheControl (resource : String) : Option String :=
  if resource = "random-game" then some "no-cache, no-store, must-revalidate"
  else none

/-- A directive is a shared-cache directive when it sets an `s-maxage`
lifetime for shared caches. -/
def isSharedCacheDirective (s : String) : Bool :=
  s.data.take 8 == "s-maxage".data

/-- A Giant Bomb platform record as consumed by getCuratedFilters of
src/unnamed/part_002: id, display name, and an optional release date
string (`none` models a null/absent `release_date`). -/
structure GBPlatform where
  id : Nat
  name : String
  release_date : Option String
deriving DecidableEq, Repr

/-- The allow-list `MAIN_PLATFORM_IDS` of src/unnamed/part_002 (lines 24 to 29). -/
def MAIN_PLATFORM_IDS : List String :=
  ["22", "19", "35", "146", "179",
   "32", "20", "145", "180",
   "157",
   "94"]

/-- JS truthiness of `p.release_date`: false for null/absent and for the
empty string. -/
def releaseTruthy : Option String → Bool
  | none => false
  | some s => s != ""

/-- Numeric value of the leading digit run of a string. -/
def digitsPrefixVal : List Char → Nat → Nat
  | [], acc => acc
  | c :: rest, acc =>
    if c.isDigit then digitsPrefixVal rest (acc * 10 + (c.toNat - 48)) else acc

/-- The expression `new Date(s).getFullYear()` for an ISO `YYYY-MM-DD` date string,
modelled as the leading year component of the string. -/
def dateYear (s : String) : Nat :=
  digitsPrefixVal s.data 0

/-- The bucket key of a platform: the year of its release date. -/
def yearKey (p : GBPlatform) : Nat :=
  dateYear (p.release_date.getD "")

/-- The forEach of getCuratedFilters (src/unnamed/part_002 lines 62 to 68):
platforms whose stringified id is in the allow-list go to `mainPlatforms`;
otherwise platforms with a truthy release date go to `otherPlatforms`; the
rest are dropped. Returns (mainPlatforms, otherPlatforms) in input order. -/
def partitionPlatforms : List GBPlatform → List GBPlatform × List GBPlatform
  | [] => ([], [])
  | p :: rest =>
    let r := partitionPlatforms rest
    if MAIN_PLATFORM_IDS.contains (toString p.id) then (p :: r.1, r.2)
    else if releaseTruthy p.release_date then (r.1, p :: r.2)
    else r

/-- The reduce of getCuratedFilters (src/unnamed/part_002 lines 70 to 75):
the bucket for year `y` holds, in order, the other platforms whose release
year is `y`. -/
def otherPlatformsGroupedByYear (others : List GBPlatform) (y : Nat) : List GBPlatform :=
  others.filter (fun p => yearKey p == y)

/-- Result of getCuratedFilters restricted to the platform partitioning
(the curated genre/concept lists are static data). The by-year buckets are
represented as a function from year to bucket contents. -/
structure CuratedPlatforms where
  mainPlatforms : List GBPlatform
  otherPlatformsByYear : Nat → List GBPlatform

/-- getCuratedFilters of src/unnamed/part_002 (lines 56 to 83), restricted
to its platform partitioning, as a function of the upstream platform
listing. -/
def getCuratedFilters (platformResults : List GBPlatform) : CuratedPlatforms :=
  let parts := partitionPlatforms platformResults
  ⟨parts.1, fun y => otherPlatformsGroupedByYear parts.2 y⟩

/-- Environment where the Mode A retry sampler finds a valid game on the
first attempt. -/
def c1EnvA : Nat → AttemptEnvA := fun _ =>
  { countResp := .ok 1, pageResp := fun _ => .ok [⟨3⟩],
    detailResp := fun _ => .ok ⟨"Portal", "A puzzle game"⟩,
    pageSeed := 0, pickSeed := 0 }

/-- Environment where the Mode B retry sampler finds a valid game on the
first attempt. -/
def c1EnvB : Nat → AttemptEnvB := fun _ =>
  { countResp := .ok 10, summaryResp := fun _ => .ok [⟨"3030-1"⟩],
    detailResp := fun _ => .ok ⟨"Portal", some ⟨"http"⟩⟩, offsetSeed := 0 }

/-- Environment where every Mode A attempt issues all three calls (count
probe, page fetch, detail fetch) and the detail is invalid. -/
def c2EnvA : Nat → AttemptEnvA := fun _ =>
  { countResp := .ok 9001, pageResp := fun _ => .ok [⟨7⟩],
    detailResp := fun _ => .ok ⟨"g", ""⟩, pageSeed := 0, pickSeed := 0 }

/-- Environment where every Mode B attempt issues all three calls and the
detail is invalid. -/
def c2EnvB : Nat → AttemptEnvB := fun _ =>
  { countResp := .ok 100, summaryResp := fun _ => .ok [⟨"3030-1"⟩],
    detailResp := fun _ => .ok ⟨"", none⟩, offsetSeed := 0 }

/-- Environment whose first Mode A attempt raises a transport failure on
the count probe while every later attempt would find a valid game. -/
def c3EnvA : Nat → AttemptEnvA := fun i =>
  if i = 0 then
    { countResp := .error (.upstream 500), pageResp := fun _ => .ok [⟨3⟩],
      detailResp := fun _ => .ok ⟨"Portal", "A puzzle game"⟩,
      pageSeed := 0, pickSeed := 0 }
  else
    { countResp := .ok 1, pageResp := fun _ => .ok [⟨3⟩],
      detailResp := fun _ => .ok ⟨"Portal", "A puzzle game"⟩,
      pageSeed := 0, pickSeed := 0 }

/-- Environment whose first Mode B attempt raises a transport failure on
the count probe while every later attempt finds a valid game. -/
def c3EnvB : Nat → AttemptEnvB := fun i =>
  if i = 0 then
    { countResp := .error (.upstream 500), summaryResp := fun _ => .ok [⟨"3030-1"⟩],
      detailResp := fun _ => .ok ⟨"Portal", some ⟨"http"⟩⟩, offsetSeed := 0 }
  else
    { countResp := .ok 10, summaryResp := fun _ => .ok [⟨"3030-1"⟩],
      detailResp := fun _ => .ok ⟨"Portal", some ⟨"http"⟩⟩, offsetSeed := 0 }

/-- Environment where every Mode A attempt fetches an invalid detail. -/
def c4EnvA : Nat → AttemptEnvA := fun _ =>
  { countResp := .ok 200, pageResp := fun _ => .ok [⟨3⟩],
    detailResp := fun _ => .ok ⟨"NoDesc", ""⟩, pageSeed := 0, pickSeed := 0 }

/-- Environment where every Mode B attempt fetches an invalid detail. -/
def c4EnvB : Nat → AttemptEnvB := fun _ =>
  { countResp := .ok 200, summaryResp := fun _ => .ok [⟨"3030-1"⟩],
    detailResp := fun _ => .ok ⟨"NoImage", none⟩, offsetSeed := 0 }

/-- Environment whose first count probe reports zero matches. -/
def c5EnvA : Nat → AttemptEnvA := fun _ =>
  { countResp := .ok 0, pageResp := fun _ => .ok [⟨3⟩],
    detailResp := fun _ => .ok ⟨"Portal", "A puzzle game"⟩,
    pageSeed := 0, pickSeed := 0 }

/-- Environment whose first Mode B count probe reports zero while every
later attempt finds a valid game. -/
def c7EnvB : Nat → AttemptEnvB := fun i =>
  if i = 0 then
    { countResp := .ok 0, summaryResp := fun _ => .ok [⟨"3030-1"⟩],
      detailResp := fun _ => .ok ⟨"Portal", some ⟨"http"⟩⟩, offsetSeed := 0 }
  else
    { countResp := .ok 10, summaryResp := fun _ => .ok [⟨"3030-1"⟩],
      detailResp := fun _ => .ok ⟨"Portal", some ⟨"http"⟩⟩, offsetSeed := 0 }

/-- Environment where every Mode B count probe reports zero. -/
def c7ZeroEnvB : Nat → AttemptEnvB := fun _ =>
  { countResp := .ok 0, summaryResp := fun _ => .ok [⟨"3030-1"⟩],
    detailResp := fun _ => .ok ⟨"Portal", some ⟨"http"⟩⟩, offsetSeed := 0 }

/-- Upstream platform listing for the C9 witness: the Switch (id 157, in
the allow-list) and the Wii (id 36, outside the allow-list, released
2006-11-17). -/
def c9Platforms : List GBPlatform :=
  [⟨157, "Nintendo Switch", some "2017-03-03"⟩,
   ⟨36, "Wii", some "2006-11-17"⟩]

/-- Environment for the C10 witness: the search reports 5 total results
but carries an empty results array. -/
def c10Env : GBSimpleEnv :=
  { searchResp := .ok ⟨5, []⟩,
    detailResp := fun _ => .ok ⟨"Portal", some ⟨"http"⟩⟩, pickSeed := 0 }

/-! Helper lemmas shared by the claim theorems. -/

theorem attemptA_calls_le (env : AttemptEnvA) : (attemptA env).2 ≤ 3 := by
  unfold attemptA
  split
  · simp
  · split
    · simp
    · split
      · simp
      · split
        · simp
        · dsimp only
          split
          · simp
          · split <;> simp

theorem runA_calls_le (env : Nat → AttemptEnvA) :
    ∀ fuel i, (runA env i fuel).2 ≤ 3 * fuel := by
  intro fuel
  induction fuel with
  | zero => intro i; simp [runA]
  | succ n ih =>
    intro i
    have hc := attemptA_calls_le (env i)
    have hi := ih (i + 1)
    unfold runA
    split <;> rename_i heq <;>
      have h2 := congrArg Prod.snd heq <;>
      simp only [] at h2 ⊢ <;>
      omega

theorem attemptB_calls_le (env : AttemptEnvB) : (attemptB env).2 ≤ 3 := by
  unfold attemptB
  split
  · simp
  · split
    · simp
    · split
      · simp
      · split
        · simp
        · split
          · simp
          · split <;> simp

theorem runB_calls_le (env : Nat → AttemptEnvB) :
    ∀ fuel i, (runB env i fuel).2 ≤ 3 * fuel := by
  intro fuel
  induction fuel with
  | zero => intro i; simp [runB]
  | succ n ih =>
    intro i
    have hc := attemptB_calls_le (env i)
    have hi := ih (i + 1)
    unfold runB
    split <;> rename_i heq <;>
      have h2 := congrArg Prod.snd heq <;>
      simp only [] at h2 ⊢ <;>
      omega

theorem runA_succ (env : Nat → AttemptEnvA) (i fuel : Nat) :
    runA env i (fuel + 1) =
      match attemptA (env i) with
      | (.found d, c) => (.ok (some d), c)
      | (.noGames, c) => (.ok none, c)
      | (.err e, c) => (.error e, c)
      | (.retry, c) => ((runA env (i + 1) fuel).1, c + (runA env (i + 1) fuel).2) := rfl

theorem runB_succ (env : Nat → AttemptEnvB) (i fuel : Nat) :
    runB env i (fuel + 1) =
      match attemptB (env i) with
      | (some g, c) => (.ok g, c)
      | (none, c) => ((runB env (i + 1) fuel).1, c + (runB env (i + 1) fuel).2) := rfl

theorem attemptA_found_valid (env : AttemptEnvA) (d : RawgDetail)
    (h : (attemptA env).1 = AttemptOutcomeA.found d) : isValidA d = true := by
  unfold attemptA at h
  split at h
  · simp at h
  · split at h
    · simp at h
    · split at h
      · simp at h
      · split at h
        · simp at h
        · dsimp only at h
          split at h
          · simp at h
          · split at h <;> rename_i hv
            · simp only [] at h
              injection h with h
              exact h ▸ hv
            · simp at h

theorem runA_found_valid (env : Nat → AttemptEnvA) :
    ∀ fuel i d, (runA env i fuel).1 = .ok (some d) → isValidA d = true := by
  intro fuel
  induction fuel with
  | zero => intro i d h; simp [runA] at h
  | succ n ih =>
    intro i d h
    rw [runA_succ] at h
    split at h <;> rename_i heq
    · simp only [] at h
      injection h with h
      injection h with h
      exact h ▸ attemptA_found_valid (env i) _ (congrArg Prod.fst heq)
    · simp at h
    · simp at h
    · exact ih (i + 1) d h

theorem attemptB_some_valid (env : AttemptEnvB) (g : GBDetail)
    (h : (attemptB env).1 = some g) : isValidB g = true := by
  unfold attemptB at h
  split at h
  · simp at h
  · split at h
    · simp at h
    · split at h
      · simp at h
      · split at h
        · simp at h
        · split at h
          · simp at h
          · split at h <;> rename_i hv
            · simp only [] at h
              injection h with h
              exact h ▸ hv
            · simp at h

theorem runB_found_valid (env : Nat → AttemptEnvB) :
    ∀ fuel i g, (runB env i fuel).1 = .ok g → isValidB g = true := by
  intro fuel
  induction fuel with
  | zero => intro i g h; simp [runB] at h
  | succ n ih =>
    intro i g h
    rw [runB_succ] at h
    split at h <;> rename_i heq
    · simp only [] at h
      injection h with h
      exact h ▸ attemptB_some_valid (env i) _ (congrArg Prod.fst heq)
    · exact ih (i + 1) g h

theorem runA_retry_window (env : Nat → AttemptEnvA) :
    ∀ fuel i, (∀ j, i ≤ j → j < i + fuel → (attemptA (env j)).1 = .retry) →
      (runA env i fuel).1 = .ok none := by
  intro fuel
  induction fuel with
  | zero => intro i _; simp [runA]
  | succ n ih =>
    intro i hall
    have hret : (attemptA (env i)).1 = .retry := hall i (Nat.le_refl i) (by omega)
    rw [runA_succ]
    split <;> rename_i heq <;>
      have h1 := congrArg Prod.fst heq <;>
      rw [hret] at h1 <;>
      first
        | (show (runA env (i + 1) n).1 = Except.ok none
           exact ih (i + 1) fun j hj1 hj2 => hall j (by omega) (by omega))
        | simp at h1

theorem runB_none_window (env : Nat → AttemptEnvB) :
    ∀ fuel i, (∀ j, i ≤ j → j < i + fuel → (attemptB (env j)).1 = none) →
      (runB env i fuel).1 = .error .exhausted := by
  intro fuel
  induction fuel with
  | zero => intro i _; simp [runB]
  | succ n ih =>
    intro i hall
    have hnone : (attemptB (env i)).1 = none := hall i (Nat.le_refl i) (by omega)
    rw [runB_succ]
    split <;> rename_i heq <;>
      have h1 := congrArg Prod.fst heq <;>
      rw [hnone] at h1 <;>
      first
        | (show (runB env (i + 1) n).1 = Except.error GBError.exhausted
           exact ih (i + 1) fun j hj1 hj2 => hall j (by omega) (by omega))
        | simp at h1

theorem mem_main_contains (p : GBPlatform) :
    ∀ ps : List GBPlatform, p ∈ (partitionPlatforms ps).1 →
      MAIN_PLATFORM_IDS.contains (toString p.id) = true := by
  intro ps
  induction ps with
  | nil => intro h; simp [partitionPlatforms] at h
  | cons q rest ih =>
    intro h
    unfold partitionPlatforms at h
    dsimp only at h
    split at h <;> rename_i hq
    · rcases List.mem_cons.mp h with h | h
      · exact h ▸ hq
      · exact ih h
    · split at h
      · exact ih h
      · exact ih h

theorem mem_other_props (p : GBPlatform) :
    ∀ ps : List GBPlatform, p ∈ (partitionPlatforms ps).2 →
      MAIN_PLATFORM_IDS.contains (toString p.id) = false ∧
        releaseTruthy p.release_date = true := by
  intro ps
  induction ps with
  | nil => intro h; simp [partitionPlatforms] at h
  | cons q rest ih =>
    intro h
    unfold partitionPlatforms at h
    dsimp only at h
    split at h <;> rename_i hq
    · exact ih h
    · split at h <;> rename_i hr
      · rcases List.mem_cons.mp h with h | h
        · subst h
          exact ⟨Bool.eq_false_iff.mpr hq, hr⟩
        · exact ih h
      · exact ih h

theorem mem_main_of (p : GBPlatform) :
    ∀ ps : List GBPlatform, p ∈ ps →
      MAIN_PLATFORM_IDS.contains (toString p.id) = true →
      p ∈ (partitionPlatforms ps).1 := by
  intro ps
  induction ps with
  | nil => intro h; simp at h
  | cons q rest ih =>
    intro h hc
    unfold partitionPlatforms
    dsimp only
    rcases List.mem_cons.mp h with h | h
    · subst h
      rw [if_pos hc]
      exact List.mem_cons_self _ _
    · split
      · exact List.mem_cons_of_mem _ (ih h hc)
      · split
        · exact ih h hc
        · exact ih h hc

theorem mem_other_of (p : GBPlatform) :
    ∀ ps : List GBPlatform, p ∈ ps →
      MAIN_PLATFORM_IDS.contains (toString p.id) = false →
      releaseTruthy p.release_date = true →
      p ∈ (partitionPlatforms ps).2 := by
  intro ps
  induction ps with
  | nil => intro h; simp at h
  | cons q rest ih =>
    intro h hc hr
    unfold partitionPlatforms
    dsimp only
    rcases List.mem_cons.mp h with h | h
    · subst h
      rw [if_neg (by rw [hc]; exact Bool.false_ne_true), if_pos hr]
      exact List.mem_cons_self _ _
    · split
      · exact ih h hc hr
      · split
        · exact List.mem_cons_of_mem _ (ih h hc hr)
        · exact ih h hc hr

/-! Claim theorems. -/

/-- Claim C1: every Found outcome of a retry sampler satisfies the
validity predicate of the variant: the Mode A retry variant returns a detail
with non-empty `description_raw`, and the Mode B retry variant returns a
game with non-empty name, a present image, and a non-empty
`image.super_url`. -/
theorem c1_found_outcomes_are_valid :
    (∀ (env : Nat → AttemptEnvA) (d : RawgDetail),
        (getSortedGameRetryA env).1 = .ok (some d) → isValidA d = true) ∧
    (∀ (env : Nat → AttemptEnvB) (g : GBDetail),
        (getRandomGame env).1 = .ok g → isValidB g = true) :=
  ⟨fun env d h => runA_found_valid env MAX_ATTEMPTS 0 d h,
   fun env g h => runB_found_valid env MAX_ATTEMPTS 0 g h⟩

/-- Witness for C1 at concrete Found runs of both retry samplers. -/
theorem c1_witness :
    isValidA ⟨"Portal", "A puzzle game"⟩ = true ∧
    isValidB ⟨"Portal", some ⟨"http"⟩⟩ = true :=
  ⟨c1_found_outcomes_are_valid.1 c1EnvA _ (by decide),
   c1_found_outcomes_are_valid.2 c1EnvB _ (by decide)⟩

/-- Counterexample to claim C2: both retry samplers re-issue the count
probe on every attempt, so a full run of 5 failed attempts issues 15
external calls, more than the claimed bound of 2 times 5 plus 1 = 11. -/
theorem c2_counterexample :
    (getSortedGameRetryA c2EnvA).2 = 15 ∧
    ¬ ((getSortedGameRetryA c2EnvA).2 ≤ 2 * 5 + 1) ∧
    (getRandomGame c2EnvB).2 = 15 ∧
    ¬ ((getRandomGame c2EnvB).2 ≤ 2 * 5 + 1) := by decide

/-- Claim C2 amended: each attempt of a retry sampler issues at most three
external calls (count probe, page or offset fetch, detail fetch), so one
invocation issues at most 3 times RetryBudget = 15 external calls. -/
theorem c2_calls_at_most_fifteen :
    ∀ (envA : Nat → AttemptEnvA) (envB : Nat → AttemptEnvB),
      (getSortedGameRetryA envA).2 ≤ 3 * MAX_ATTEMPTS ∧
      (getRandomGame envB).2 ≤ 3 * MAX_ATTEMPTS :=
  fun envA envB =>
    ⟨runA_calls_le envA MAX_ATTEMPTS 0, runB_calls_le envB MAX_ATTEMPTS 0⟩

/-- Counterexample to claim C3: the policies are the opposite of the
claim. A transport failure in the first Mode A attempt aborts the whole
call (the remaining attempts, which would have found a valid game, never
run), while the same failure in the first Mode B attempt is swallowed and
the second attempt returns a game. -/
theorem c3_counterexample :
    (getSortedGameRetryA c3EnvA).1 = .error (.upstream 500) ∧
    (getRandomGame c3EnvB).1 = .ok ⟨"Portal", some ⟨"http"⟩⟩ := by decide

/-- Claim C3 amended: a transport failure during a Mode A attempt
propagates immediately and aborts the whole call, while a transport
failure on a Mode B count probe is caught, consumes the attempt, and the
loop continues with the next attempt. -/
theorem c3_failure_policy :
    ∀ (e : TransportError) (envA : Nat → AttemptEnvA) (envB : Nat → AttemptEnvB),
      ((attemptA (envA 0)).1 = .err e → (getSortedGameRetryA envA).1 = .error e) ∧
      ((envB 0).countResp = .error e →
        (getRandomGame envB).1 = (runB envB 1 (MAX_ATTEMPTS - 1)).1) := by
  intro e envA envB
  constructor
  · intro h
    show (runA envA 0 (4 + 1)).1 = .error e
    rw [runA_succ]
    split <;> rename_i heq <;>
      have h1 := congrArg Prod.fst heq <;>
      rw [h] at h1
    · simp at h1
    · simp at h1
    · injection h1 with h2
      simp [h2]
    · simp at h1
  · intro h
    have ha : attemptB (envB 0) = (none, 1) := by
      unfold attemptB
      rw [h]
    show (runB envB 0 (4 + 1)).1 = (runB envB 1 4).1
    rw [runB_succ, ha]

/-- Witness for C3 amended at the concrete environments of the
counterexample. -/
theorem c3_witness :
    (getSortedGameRetryA c3EnvA).1 = .error (.upstream 500) ∧
    (getRandomGame c3EnvB).1 = (runB c3EnvB 1 4).1 :=
  ⟨(c3_failure_policy (.upstream 500) c3EnvA c3EnvB).1 (by decide),
   (c3_failure_policy (.upstream 500) c3EnvA c3EnvB).2 (by decide)⟩

/-- Claim C4: when every attempt fails to produce a valid item, the Mode A
sampler returns a quiet null (the same value NotFound surfaces as), while
the Mode B sampler throws the definitive exhaustion error. -/
theorem c4_exhaustion_asymmetry :
    ∀ (envA : Nat → AttemptEnvA) (envB : Nat → AttemptEnvB),
      ((∀ i, i < MAX_ATTEMPTS → (attemptA (envA i)).1 = .retry) →
        (getSortedGameRetryA envA).1 = .ok none) ∧
      ((∀ i, i < MAX_ATTEMPTS → (attemptB (envB i)).1 = none) →
        (getRandomGame envB).1 = .error .exhausted) :=
  fun envA envB =>
    ⟨fun h => runA_retry_window envA MAX_ATTEMPTS 0
        (fun j _ hj2 => h j (by omega)),
     fun h => runB_none_window envB MAX_ATTEMPTS 0
        (fun j _ hj2 => h j (by omega))⟩

/-- Witness for C4 at concrete all-invalid environments. -/
theorem c4_witness :
    (getSortedGameRetryA c4EnvA).1 = .ok none ∧
    (getRandomGame c4EnvB).1 = .error .exhausted :=
  ⟨(c4_exhaustion_asymmetry c4EnvA c4EnvB).1
      (fun _ _ => (by decide : (attemptA (c4EnvA 0)).1 = AttemptOutcomeA.retry)),
   (c4_exhaustion_asymmetry c4EnvA c4EnvB).2
      (fun _ _ => (by decide : (attemptB (c4EnvB 0)).1 = none))⟩

/-- Claim C5: a zero count from the probe makes the Mode A samplers return
null immediately with exactly one external call: no page fetch, no detail
fetch, no further attempt. Covers both the retry variant of
src/unnamed/part_000 and the non-retry variant of src/api/rawg.js. -/
theorem c5_zero_count_immediate_notfound :
    ∀ (envA : Nat → AttemptEnvA) (envS : AttemptEnvA),
      ((envA 0).countResp = .ok 0 → getSortedGameRetryA envA = (.ok none, 1)) ∧
      (envS.countResp = .ok 0 → getSortedGameSimple envS = (.ok none, 1)) := by
  intro envA envS
  constructor
  · intro h
    have ha : attemptA (envA 0) = (.noGames, 1) := by
      unfold attemptA
      rw [h]
      rfl
    show runA envA 0 (4 + 1) = (.ok none, 1)
    rw [runA_succ, ha]
  · intro h
    unfold getSortedGameSimple
    rw [h]
    rfl

/-- Witness for C5 at a concrete zero-count environment. -/
theorem c5_witness :
    getSortedGameRetryA c5EnvA = (.ok none, 1) ∧
    getSortedGameSimple (c5EnvA 0) = (.ok none, 1) :=
  ⟨(c5_zero_count_immediate_notfound c5EnvA (c5EnvA 0)).1 (by decide),
   (c5_zero_count_immediate_notfound c5EnvA (c5EnvA 0)).2 (by decide)⟩

/-- Claim C6: maxPage is the minimum of the 250-page upstream cap and the
ceiling of count / 40; it is 226 for count 9001 and 250 for count 500000,
and for every positive count the drawn page number lies between 1 and
maxPage. -/
theorem c6_maxPage_values_and_page_range :
    maxPage 9001 = 226 ∧ maxPage 500000 = 250 ∧
    (∀ n seed, 0 < n →
      1 ≤ randomPage seed (maxPage n) ∧ randomPage seed (maxPage n) ≤ maxPage n) := by
  refine ⟨by decide, by decide, ?_⟩
  intro n seed hn
  have hm : 0 < maxPage n := by
    unfold maxPage
    omega
  have hlt : seed % maxPage n < maxPage n := Nat.mod_lt seed hm
  unfold randomPage
  omega

/-- Witness for C6 at count 9001 and seed 12345. -/
theorem c6_witness :
    1 ≤ randomPage 12345 (maxPage 9001) ∧
    randomPage 12345 (maxPage 9001) ≤ maxPage 9001 :=
  c6_maxPage_values_and_page_range.2.2 9001 12345 (by decide)

theorem runB_const_none_one (env : Nat → AttemptEnvB) :
    ∀ fuel i, (∀ j, i ≤ j → j < i + fuel → attemptB (env j) = (none, 1)) →
      runB env i fuel = (.error .exhausted, fuel) := by
  intro fuel
  induction fuel with
  | zero => intro i _; rfl
  | succ n ih =>
    intro i hall
    rw [runB_succ, hall i (Nat.le_refl i) (by omega)]
    rw [ih (i + 1) (fun j h1 h2 => hall j (by omega) (by omega))]
    show (Except.error GBError.exhausted, 1 + n) = (Except.error GBError.exhausted, n + 1)
    rw [Nat.add_comm]

/-- Counterexample to claim C7: the zero-count domain error of the Mode B
sampler is raised inside the per-attempt try/catch, so it is swallowed: a
second attempt runs right after the zero count (the call returns that
game of that attempt, issuing three more calls), instead of the error
propagating with no further retry. -/
theorem c7_counterexample :
    (c7EnvB 0).countResp = .ok 0 ∧
    (getRandomGame c7EnvB).1 = .ok ⟨"Portal", some ⟨"http"⟩⟩ ∧
    (getRandomGame c7EnvB).2 = 4 := by decide

/-- Claim C7 amended: a zero count in a Mode B attempt is caught by the
per-attempt catch block and merely consumes the attempt; the loop
continues, and when every attempt sees a zero count the call ends by
throwing the exhaustion error after the full budget of five probes. -/
theorem c7_zero_count_caught :
    ∀ envB : Nat → AttemptEnvB,
      ((envB 0).countResp = .ok 0 →
        (getRandomGame envB).1 = (runB envB 1 (MAX_ATTEMPTS - 1)).1) ∧
      ((∀ i, i < MAX_ATTEMPTS → (envB i).countResp = .ok 0) →
        getRandomGame envB = (.error .exhausted, MAX_ATTEMPTS)) := by
  intro envB
  constructor
  · intro h
    have ha : attemptB (envB 0) = (none, 1) := by
      unfold attemptB
      rw [h]
      rfl
    show (runB envB 0 (4 + 1)).1 = (runB envB 1 4).1
    rw [runB_succ, ha]
  · intro h
    exact runB_const_none_one envB MAX_ATTEMPTS 0
      (fun j _ hj => by
        unfold attemptB
        rw [h j (by omega)]
        rfl)

/-- Witness for C7 amended at the all-zero-count environment. -/
theorem c7_witness :
    (getRandomGame c7ZeroEnvB).1 = (runB c7ZeroEnvB 1 4).1 ∧
    getRandomGame c7ZeroEnvB = (.error .exhausted, 5) :=
  ⟨(c7_zero_count_caught c7ZeroEnvB).1 (by decide),
   (c7_zero_count_caught c7ZeroEnvB).2
      (fun _ _ => (by decide : (c7ZeroEnvB 0).countResp = .ok 0))⟩

/-- Counterexample to claim C8: the handler of src/api/giantbomb.js and
the first handler variant of src/unnamed/part_002 attach a shared-cache
s-maxage directive to every successful response, game samples included,
so a game-sample success is sent with a shared-cache directive. -/
theorem c8_counterexample :
    gbCacheControl "game" = some "s-maxage=3600, stale-while-revalidate" ∧
    gb2CacheControl "game" = some "s-maxage=86400, stale-while-revalidate" ∧
    isSharedCacheDirective "s-maxage=3600, stale-while-revalidate" = true ∧
    isSharedCacheDirective "s-maxage=86400, stale-while-revalidate" = true := by
  decide

/-- Claim C8 amended: the RAWG handlers (src/api/rawg.js and
src/unnamed/part_000), the Mode B handler (src/unnamed/part_001) and the
second handler variant of src/unnamed/part_002 mark game samples
no-cache and filter catalogs with the shared s-maxage directive, but the
handler of src/api/giantbomb.js and the first handler variant of
src/unnamed/part_002 send even successful game samples with a
shared-cache directive. -/
theorem c8_cache_directives :
    rawgCacheControl "game" = some "no-cache, no-store, must-revalidate" ∧
    rawgCacheControl "filters" = some "s-maxage=86400, stale-while-revalidate" ∧
    gb3CacheControl "game" = some "no-cache, no-store, must-revalidate" ∧
    gb3CacheControl "filters" = some "s-maxage=86400, stale-while-revalidate" ∧
    modeBCacheControl "random-game" = some "no-cache, no-store, must-revalidate" ∧
    gbCacheControl "game" = some "s-maxage=3600, stale-while-revalidate" ∧
    gb2CacheControl "game" = some "s-maxage=86400, stale-while-revalidate" := by
  decide

/-- Claim C9: in the curated-filter partitioning, a platform whose id is
outside the main-platform allow-list and whose release date is set lands
in the by-year bucket of its release year and never in the main list; a
platform whose id is in the allow-list lands in the main list and in no
year bucket. -/
theorem c9_platform_partitioning :
    ∀ (ps : List GBPlatform) (p : GBPlatform), p ∈ ps →
      (MAIN_PLATFORM_IDS.contains (toString p.id) = false →
        releaseTruthy p.release_date = true →
        p ∈ (getCuratedFilters ps).otherPlatformsByYear (yearKey p) ∧
        p ∉ (getCuratedFilters ps).mainPlatforms) ∧
      (MAIN_PLATFORM_IDS.contains (toString p.id) = true →
        p ∈ (getCuratedFilters ps).mainPlatforms ∧
        ∀ y, p ∉ (getCuratedFilters ps).otherPlatformsByYear y) := by
  intro ps p hmem
  constructor
  · intro hc hr
    constructor
    · show p ∈ (partitionPlatforms ps).2.filter (fun q => yearKey q == yearKey p)
      exact List.mem_filter.mpr
        ⟨mem_other_of p ps hmem hc hr, by simp⟩
    · intro hmain
      have hc2 := mem_main_contains p ps hmain
      rw [hc] at hc2
      exact Bool.false_ne_true hc2
  · intro hc
    refine ⟨mem_main_of p ps hmem hc, ?_⟩
    intro y hy
    have h2 := (mem_other_props p ps (List.mem_filter.mp hy).1).1
    rw [hc] at h2
    simp at h2

/-- Witness for C9: the Wii record, whose id 36 is outside the allow-list
and whose release date is 2006-11-17, lands in the year-2006 bucket and
not in the main-platform list; the Switch record lands in the main list. -/
theorem c9_witness :
    (⟨36, "Wii", some "2006-11-17"⟩ : GBPlatform) ∈
      (getCuratedFilters c9Platforms).otherPlatformsByYear 2006 ∧
    (⟨36, "Wii", some "2006-11-17"⟩ : GBPlatform) ∉
      (getCuratedFilters c9Platforms).mainPlatforms ∧
    (⟨157, "Nintendo Switch", some "2017-03-03"⟩ : GBPlatform) ∈
      (getCuratedFilters c9Platforms).mainPlatforms :=
  ⟨((c9_platform_partitioning c9Platforms ⟨36, "Wii", some "2006-11-17"⟩
      (by decide)).1 (by decide) (by decide)).1,
   ((c9_platform_partitioning c9Platforms ⟨36, "Wii", some "2006-11-17"⟩
      (by decide)).1 (by decide) (by decide)).2,
   ((c9_platform_partitioning c9Platforms ⟨157, "Nintendo Switch", some "2017-03-03"⟩
      (by decide)).2 (by decide)).1⟩

/-- Claim C10: in the non-retrying Giant Bomb sampler, a search response
with a non-zero total but an empty results array makes the unguarded
random array access yield undefined, and reading its guid throws a
TypeError after the single search call; the sampler neither returns null
nor retries. -/
theorem c10_empty_results_type_error :
    ∀ (env : GBSimpleEnv) (sd : GBSearchData),
      env.searchResp = .ok sd →
      sd.number_of_total_results ≠ 0 →
      sd.results = [] →
      gbGetSortedGame env = (.error .typeError, 1) := by
  intro env sd h1 h2 h3
  unfold gbGetSortedGame
  rw [h1]
  simp [h2, h3]

/-- Witness for C10 at the concrete empty-results environment. -/
theorem c10_witness : gbGetSortedGame c10Env = (.error .typeError, 1) :=
  c10_empty_results_type_error c10Env ⟨5, []⟩ (by decide) (by decide) (by decide)
